import Mathlib

/-!
# Shallow embedding of the Dynamic Presence state machine

Definitions translated from `src/presence_control.py` (the `PresenceTimer`
and `PresenceControl` classes), `src/light_control.py` (`LightController`)
and `src/coordinator.py` (`DynamicPresenceCoordinator._is_night_mode_active`,
`_is_room_dark`, and the light-level update in `_async_update_data`).

Modelling conventions:
* Machine integers and second counts are `Int`; timestamps (`dt_util.utcnow()`)
  are `Int` instants passed explicitly as a `now` argument.
* `hass.states.get(entity)` is an oracle `String → Option String` carried in
  the environment record `Env`.
* The process-wide registry `hass.data[DOMAIN]` minus the room itself is the
  list `Env.others` (the Python loop skips `self` by entry id; the skip is
  pre-applied here).  Dict lookup `hass.data[DOMAIN].get(room_id)` becomes
  `List.find?` on that list (entry ids are unique keys).
* Light service calls are recorded in an explicit command trace: `turn_on`
  issues one service call per light, `turn_off` issues a single batched call
  and returns early on an empty list, exactly as in `light_control.py`.
* `set(lights + night_lights)` is modelled as `(lights ++ nightLights).eraseDups`
  (Python set iteration order is unspecified; no theorem below inspects the
  order of that batched list).
-/

/-- `RoomState` enum from `presence_control.py`. -/
inductive RoomState where
  | vacant
  | occupied
  | detectionTimeout
  | countdown
deriving DecidableEq, Repr

/-- `PresenceTimer` instance state: `_timer` (pending callback handle — its
payload records the delay it was scheduled with), `_start_time`, `_duration`. -/
structure PresenceTimer where
  timer : Option Int
  startTime : Option Int
  duration : Option Int
deriving DecidableEq, Repr

/-- `PresenceTimer.is_active`: the `_timer` handle is set. -/
def PresenceTimer.isActive (t : PresenceTimer) : Bool :=
  t.timer.isSome

/-- `PresenceTimer.remaining_time`: 0 when inactive or without a start time,
else `max(0, duration - elapsed)`.  (`_duration` is always set when the timer
is active; `getD 0` covers the unreachable mismatch.) -/
def PresenceTimer.remainingTime (t : PresenceTimer) (now : Int) : Int :=
  if !t.isActive || t.startTime.isNone then 0
  else max 0 (t.duration.getD 0 - (now - t.startTime.getD 0))

/-- `PresenceTimer.cancel`: clears handle, start time and duration when a
callback is pending; no-op otherwise. -/
def PresenceTimer.cancel (t : PresenceTimer) : PresenceTimer :=
  if t.timer.isSome then ⟨none, none, none⟩ else t

/-- `PresenceTimer.start(duration)`: rejects (logs, returns) a non-positive
duration *before* cancelling the previous timer; otherwise cancels, records
start time and duration, and schedules one `async_call_later` (returned in the
second component as the list of newly scheduled delays). -/
def PresenceTimer.start (t : PresenceTimer) (d : Int) (now : Int) :
    PresenceTimer × List Int :=
  if d ≤ 0 then (t, [])
  else
    let _cancelled := t.cancel
    (⟨some d, some now, some d⟩, [d])

/-- The two manual-state modes (`"main"` / `"night"`). -/
inductive Mode where
  | main
  | night
deriving DecidableEq, Repr

/-- `coordinator.manual_states`: one `{light_id -> bool}` dict per mode. -/
structure ManualStates where
  main : List (String × Bool)
  night : List (String × Bool)
deriving DecidableEq, Repr

/-- Select the per-mode dict, `manual_states[mode]`. -/
def ManualStates.get (ms : ManualStates) : Mode → List (String × Bool)
  | Mode.main => ms.main
  | Mode.night => ms.night

/-- Replace the per-mode dict, `manual_states[mode] = d`. -/
def ManualStates.set (ms : ManualStates) (m : Mode) (d : List (String × Bool)) :
    ManualStates :=
  match m with
  | Mode.main => { ms with main := d }
  | Mode.night => { ms with night := d }

/-- `manual_states[mode].get(light, True)`. -/
def msGetD (m : List (String × Bool)) (l : String) : Bool :=
  (m.lookup l).getD true

/-- A light service call issued through a `LightController`; `room = none`
is this room's controller, `some id` an adjacent room's. -/
inductive Cmd where
  | turnOn (room : Option String) (light : String)
  | turnOff (room : Option String) (lights : List String)
deriving DecidableEq, Repr

/-- `LightController.turn_on_lights`: early return on empty list, else one
service call per light. -/
def turnOnCmds (room : Option String) (lights : List String) : List Cmd :=
  lights.map (Cmd.turnOn room)

/-- `LightController.turn_off_lights`: early return on empty list, else one
batched service call. -/
def turnOffCmds (room : Option String) (lights : List String) : List Cmd :=
  if lights.isEmpty then [] else [Cmd.turnOff room lights]

/-- The view of another room's coordinator used by `_update_state`
(`hass.data[DOMAIN]` registry entry). -/
structure OtherRoom where
  entryId : String
  adjacentRooms : List String
  state : RoomState
  activeLights : List String
  hasLightSensor : Bool
  sensorLightLevel : Int
  lightThreshold : Int
deriving DecidableEq, Repr

/-- The coordinator data and configuration read by `PresenceControl`. -/
structure Env where
  switchAutomation : Bool
  switchAutoOn : Bool
  switchAutoOff : Bool
  hasNightMode : Bool
  nightModeActive : Bool
  switchNightManualOn : Bool
  binarySensorNightMode : Bool
  activeLights : List String
  lights : List String
  nightLights : List String
  detectionTimeout : Int
  longTimeout : Int
  shortTimeout : Int
  entryId : String
  adjacentRooms : List String
  others : List OtherRoom
  hassLightState : String → Option String

/-- `hass.data[DOMAIN].get(room_id)` over the registry of other rooms. -/
def findRoom (others : List OtherRoom) (roomId : String) : Option OtherRoom :=
  others.find? (fun r => r.entryId = roomId)

/-- `LightController.check_any_lights_on`: some queried light reports `"on"`
(missing / unknown / unavailable states count as not on). -/
def checkAnyLightsOn (env : Env) (lights : List String) : Bool :=
  lights.any (fun l =>
    match env.hassLightState l with
    | some st => st = "on"
    | none => false)

/-- Mutable state of a `PresenceControl` instance (plus the coordinator's
`manual_states`, which `_update_state` mutates). -/
structure PCState where
  state : RoomState
  lastPresenceTime : Option Int
  occupancyStartTime : Option Int
  detectionTimer : PresenceTimer
  countdownTimer : PresenceTimer
  manualStates : ManualStates
deriving DecidableEq, Repr

/-- `_validate_state_transition`: `new_state` must be listed under the current
state in the `valid_transitions` table; otherwise a warning is logged and the
function returns `False`. -/
def validateStateTransition (cur new : RoomState) : Bool :=
  let validTransitions : RoomState → List RoomState := fun s =>
    match s with
    | RoomState.vacant => [RoomState.occupied]
    | RoomState.occupied => [RoomState.detectionTimeout, RoomState.vacant]
    | RoomState.detectionTimeout => [RoomState.occupied, RoomState.countdown]
    | RoomState.countdown => [RoomState.occupied, RoomState.vacant]
  (validTransitions cur).contains new

/-- The adjacent-room loop of `_update_state`'s VACANT branch (inside
`if auto_off:`): turn off the active lights of each configured adjacent room
that is itself VACANT. -/
def vacantAdjOffCmds (env : Env) : List Cmd :=
  env.adjacentRooms.foldl
    (fun acc roomId =>
      match findRoom env.others roomId with
      | some r =>
          if r.state = RoomState.vacant then
            acc ++ turnOffCmds (some r.entryId) r.activeLights
          else acc
      | none => acc)
    []

/-- One iteration of the adjacent-room loop in `_update_state`'s OCCUPIED
branch: turn on the active lights of a configured adjacent room when it is
VACANT, unless its light sensor reads at or above its threshold. -/
def adjacentOnStep (env : Env) (acc : List Cmd) (roomId : String) : List Cmd :=
  match findRoom env.others roomId with
  | some r =>
      if r.state = RoomState.vacant then
        if r.hasLightSensor && decide (r.sensorLightLevel ≥ r.lightThreshold) then
          acc
        else acc ++ turnOnCmds (some r.entryId) r.activeLights
      else acc
  | none => acc

/-- The adjacent-room loop of `_update_state`'s OCCUPIED branch. -/
def adjacentOnCmds (env : Env) : List Cmd :=
  env.adjacentRooms.foldl (adjacentOnStep env) []

/-- `mode = "night" if is_night_mode else "main"` where
`is_night_mode = is_night_mode_active() if has_night_mode else False`. -/
def autoOnMode (env : Env) : Mode :=
  if env.hasNightMode && env.nightModeActive then Mode.night else Mode.main

/-- The `if auto_on and (not is_night_mode or not night_manual_on):` block of
`_update_state`'s OCCUPIED branch: with ALL manual states for the active mode
recorded off, reset the mode's map to all-on and turn every active light on;
otherwise turn on the lights whose manual state (default `True`) is on.
Returns the updated `manual_states` and the local light commands. -/
def occupiedAutoOn (env : Env) (ms : ManualStates) : ManualStates × List Cmd :=
  let isNightMode := env.hasNightMode && env.nightModeActive
  let nightManualOn := env.hasNightMode && env.switchNightManualOn
  if env.switchAutoOn && (!isNightMode || !nightManualOn) then
    let mode := autoOnMode env
    let lightsToControl := env.activeLights
    let allLightsOff :=
      lightsToControl.all (fun l => !(msGetD (ms.get mode) l))
    if allLightsOff then
      (ms.set mode (lightsToControl.map (fun l => (l, true))),
        turnOnCmds none lightsToControl)
    else
      let lightsToTurnOn :=
        lightsToControl.filter (fun l => msGetD (ms.get mode) l)
      (ms, turnOnCmds none lightsToTurnOn)
  else (ms, [])

/-- `PresenceControl._update_state(new_state)`.

Control flow follows the source exactly:
* early return (state and commands untouched) when `switch_automation` is off;
* VACANT: if some other room lists this room as adjacent and is OCCUPIED,
  set the state and return without light commands; otherwise, when
  `switch_auto_off` is set, turn off the union of main and night lights and
  then the active lights of vacant adjacent rooms;
* OCCUPIED: when `switch_auto_on` is set and night-mode manual-on does not
  suppress it, either reset an all-off manual-state map for the active mode to
  all-on and turn every active light on, or turn on exactly the lights whose
  manual state (default `True`) is on; then propagate to vacant adjacent rooms;
* any other target (the second `elif new_state == VACANT` in the source is
  unreachable): no light commands;
* finally `_state = new_state`. -/
def updateState (env : Env) (s : PCState) (newState : RoomState) :
    PCState × List Cmd :=
  if !env.switchAutomation then (s, [])
  else if newState = RoomState.vacant then
    if env.others.any (fun r =>
        r.adjacentRooms.contains env.entryId && r.state = RoomState.occupied) then
      ({ s with state := newState }, [])
    else
      let cmds :=
        if env.switchAutoOff then
          turnOffCmds none ((env.lights ++ env.nightLights).eraseDups)
            ++ vacantAdjOffCmds env
        else []
      ({ s with state := newState }, cmds)
  else if newState = RoomState.occupied then
    let msCmds := occupiedAutoOn env s.manualStates
    ({ s with state := newState, manualStates := msCmds.fst },
      msCmds.snd ++ adjacentOnCmds env)
  else
    ({ s with state := newState }, [])

/-- `_start_detection_timer`: start the detection timer with
`coordinator.detection_timeout`. -/
def startDetectionTimer (env : Env) (s : PCState) (now : Int) : PCState :=
  { s with detectionTimer := (s.detectionTimer.start env.detectionTimeout now).fst }

/-- The duration `_start_countdown_timer` passes to `countdown_timer.start`:
`short_timeout` when night mode applies (`has_night_mode` and the
`binary_sensor_night_mode` data flag), else `long_timeout`; minus
`detection_timeout` when `subtract_detection`. -/
def countdownDuration (env : Env) (subtractDetection : Bool) : Int :=
  let timeout :=
    if env.hasNightMode && env.binarySensorNightMode then env.shortTimeout
    else env.longTimeout
  if subtractDetection then timeout - env.detectionTimeout else timeout

/-- `_start_countdown_timer(subtract_detection)`. -/
def startCountdownTimer (env : Env) (s : PCState) (now : Int)
    (subtractDetection : Bool) : PCState :=
  { s with countdownTimer :=
      (s.countdownTimer.start (countdownDuration env subtractDetection) now).fst }

/-- `handle_detection_timeout`: only acts in DETECTION_TIMEOUT; with some
active light on, move to COUNTDOWN and start the countdown timer (detection
time subtracted); otherwise move to VACANT. -/
def handleDetectionTimeout (env : Env) (s : PCState) (now : Int) :
    PCState × List Cmd :=
  if s.state = RoomState.detectionTimeout then
    if checkAnyLightsOn env env.activeLights then
      let (s', cmds) := updateState env s RoomState.countdown
      (startCountdownTimer env s' now true, cmds)
    else updateState env s RoomState.vacant
  else (s, [])

/-- `start_countdown_from_vacant`: move to COUNTDOWN and start the countdown
timer at full duration. -/
def startCountdownFromVacant (env : Env) (s : PCState) (now : Int) :
    PCState × List Cmd :=
  let (s', cmds) := updateState env s RoomState.countdown
  (startCountdownTimer env s' now false, cmds)

/-- `_on_presence_sensor_activated`: record `last_presence_time`; when not
already OCCUPIED, record `occupancy_start_time` and move to OCCUPIED. -/
def onPresenceSensorActivated (env : Env) (s : PCState) (now : Int) :
    PCState × List Cmd :=
  let s := { s with lastPresenceTime := some now }
  if s.state ≠ RoomState.occupied then
    updateState env { s with occupancyStartTime := some now } RoomState.occupied
  else (s, [])

/-- `_on_presence_sensor_deactivated`: record `last_presence_time`; when
OCCUPIED, move to DETECTION_TIMEOUT and start the detection timer. -/
def onPresenceSensorDeactivated (env : Env) (s : PCState) (now : Int) :
    PCState × List Cmd :=
  let s := { s with lastPresenceTime := some now }
  if s.state = RoomState.occupied then
    let (s', cmds) := updateState env s RoomState.detectionTimeout
    (startDetectionTimer env s' now, cmds)
  else (s, [])

/-- `handle_presence_event`: an event with no `new_state` is dropped;
otherwise `"on"` activates and *any other* value deactivates. -/
def handlePresenceEvent (env : Env) (s : PCState) (now : Int)
    (eventNewState : Option String) : PCState × List Cmd :=
  match eventNewState with
  | none => (s, [])
  | some st =>
      if st = "on" then onPresenceSensorActivated env s now
      else onPresenceSensorDeactivated env s now

/-- `DynamicPresenceCoordinator._is_night_mode_active`.  Wall-clock times of
day are minutes since midnight (the source compares zero-padded `"HH:MM"`
strings, whose lexicographic order coincides with numeric order of minutes);
`finish` is the `night_mode_end` value. -/
def isNightModeActive (nightModeEnable : Bool) (start finish now : Nat) : Bool :=
  if !nightModeEnable then false
  else if start ≤ finish then decide (start ≤ now) && decide (now < finish)
  else decide (now ≥ start) || decide (now < finish)

/-- `DynamicPresenceCoordinator._is_room_dark`: compare a known light level to
the threshold; with no valid reading, default to `True` ("assume room needs
light"). -/
def isRoomDark (lightLevel : Option Int) (threshold : Int) : Bool :=
  match lightLevel with
  | some l => decide (l < threshold)
  | none => true

/-- Numeric value of a digit string. -/
def digitsVal (cs : List Char) : Nat :=
  cs.foldl (fun a c => a * 10 + (c.toNat - 48)) 0

/-- Models Python `int(float(s))` for plain decimal literals
`[sign]digits[.digits]`: the integer part with the fraction truncated toward
zero, or `none` when parsing raises `ValueError` (the path
`_async_update_data` catches).  Exotic float syntax (exponents, underscores,
surrounding whitespace, bare `.` forms, infinities) is outside the inputs the
claims exercise. -/
def intFloat (s : String) : Option Int :=
  let cs := s.data
  let signRest : Int × List Char :=
    match cs with
    | '-' :: r => (-1, r)
    | '+' :: r => (1, r)
    | r => (1, r)
  let sign := signRest.fst
  let rest := signRest.snd
  let ip := rest.takeWhile (fun c => c ≠ '.')
  let rem := rest.dropWhile (fun c => c ≠ '.')
  if ip.isEmpty || !ip.all Char.isDigit then none
  else
    match rem with
    | [] => some (sign * digitsVal ip)
    | '.' :: fp =>
        if !fp.isEmpty && fp.all Char.isDigit then some (sign * digitsVal ip)
        else none
    | _ => none

/-- The light-level update step of `_async_update_data` (lines 132–141): on a
successful parse the sensor value is stored, on `ValueError`/`TypeError` the
stored value becomes `None`. -/
def lightLevelUpdate (raw : String) : Option Int :=
  match intFloat raw with
  | some n => some n
  | none => none

/-- Local (own-room) lights targeted by `turn_on` calls in a command trace. -/
def localOnLights (cmds : List Cmd) : List String :=
  cmds.filterMap (fun c =>
    match c with
    | Cmd.turnOn none l => some l
    | _ => none)

/-- The transition table exactly as the spec writes it (refinement reference
for claim C1; the executable source table lives in `validateStateTransition`). -/
def specValidEdge : RoomState → RoomState → Bool
  | RoomState.vacant, RoomState.occupied => true
  | RoomState.occupied, RoomState.detectionTimeout => true
  | RoomState.occupied, RoomState.vacant => true
  | RoomState.detectionTimeout, RoomState.occupied => true
  | RoomState.detectionTimeout, RoomState.countdown => true
  | RoomState.countdown, RoomState.occupied => true
  | RoomState.countdown, RoomState.vacant => true
  | _, _ => false

/-- The night-mode window exactly as the spec words it (refinement reference
for claim C7): membership in `[start, end)`, wrapping past midnight when
`end < start` (then: `now >= start OR now < end`). -/
def specNightWindow (start finish now : Nat) : Bool :=
  if finish < start then decide (now ≥ start) || decide (now < finish)
  else decide (start ≤ now) && decide (now < finish)

/-- A one-light room with automation on, auto-on/auto-off off, no night mode,
no adjacent rooms, every light reporting `"off"`. -/
def envBase : Env where
  switchAutomation := true
  switchAutoOn := false
  switchAutoOff := false
  hasNightMode := false
  nightModeActive := false
  switchNightManualOn := false
  binarySensorNightMode := false
  activeLights := ["light.a"]
  lights := ["light.a"]
  nightLights := []
  detectionTimeout := 5
  longTimeout := 120
  shortTimeout := 30
  entryId := "room_a"
  adjacentRooms := []
  others := []
  hassLightState := fun _ => some "off"

/-- Fresh controller state in VACANT with idle timers. -/
def s0 : PCState where
  state := RoomState.vacant
  lastPresenceTime := none
  occupancyStartTime := none
  detectionTimer := ⟨none, none, none⟩
  countdownTimer := ⟨none, none, none⟩
  manualStates := ⟨[("light.a", true)], [("light.a", true)]⟩

/-- `s0` already in OCCUPIED. -/
def sOcc : PCState := { s0 with state := RoomState.occupied }

/-- `s0` already in DETECTION_TIMEOUT. -/
def sDet : PCState := { s0 with state := RoomState.detectionTimeout }

/-- `envBase` with every light reporting `"on"`. -/
def envLightsOn : Env := { envBase with hassLightState := fun _ => some "on" }

/-- `envBase` with auto-on enabled, night mode present and active, and
`night_manual_on` set (the combination that suppresses auto-on). -/
def envNightSuppressed : Env :=
  { envBase with
      switchAutoOn := true,
      hasNightMode := true,
      nightModeActive := true,
      switchNightManualOn := true }

/-- `s0` with the single light recorded OFF in both manual-state maps. -/
def sAllOff : PCState :=
  { s0 with manualStates := ⟨[("light.a", false)], [("light.a", false)]⟩ }

/-- `envBase` with auto-on enabled (day mode). -/
def envAutoOn : Env := { envBase with switchAutoOn := true }

section Lemmas

theorem localOnLights_append (a b : List Cmd) :
    localOnLights (a ++ b) = localOnLights a ++ localOnLights b := by
  simp [localOnLights, List.filterMap_append]

theorem localOnLights_turnOn_some (rid : String) (ls : List String) :
    localOnLights (turnOnCmds (some rid) ls) = [] := by
  induction ls with
  | nil => rfl
  | cons h t ih => simp_all [localOnLights, turnOnCmds]

theorem localOnLights_turnOn_none (ls : List String) :
    localOnLights (turnOnCmds none ls) = ls := by
  induction ls with
  | nil => rfl
  | cons h t ih => simpa [localOnLights, turnOnCmds] using ih

theorem localOnLights_adjacentOnStep (env : Env) (acc : List Cmd)
    (roomId : String) :
    localOnLights (adjacentOnStep env acc roomId) = localOnLights acc := by
  unfold adjacentOnStep
  cases findRoom env.others roomId with
  | none => rfl
  | some r =>
      by_cases hv : r.state = RoomState.vacant
      · by_cases hs : (r.hasLightSensor &&
          decide (r.sensorLightLevel ≥ r.lightThreshold)) = true
        · simp [hv, hs]
        · simp [hv, hs, localOnLights_append, localOnLights_turnOn_some]
      · simp [hv]

theorem localOnLights_adjacentOnFold (env : Env) (ids : List String) :
    ∀ acc : List Cmd,
      localOnLights (List.foldl (adjacentOnStep env) acc ids) =
        localOnLights acc := by
  induction ids with
  | nil => intro acc; rfl
  | cons h t ih =>
      intro acc
      simpa [localOnLights_adjacentOnStep] using ih (adjacentOnStep env acc h)

theorem localOnLights_adjacentOnCmds (env : Env) :
    localOnLights (adjacentOnCmds env) = [] := by
  simpa using localOnLights_adjacentOnFold env env.adjacentRooms []

/-- With automation enabled, `_update_state` toward OCCUPIED applies the
auto-on block to the manual states and appends the adjacent-room commands. -/
theorem updateState_occupied (env : Env) (s : PCState)
    (h : env.switchAutomation = true) :
    updateState env s RoomState.occupied =
      ({ s with
          state := RoomState.occupied,
          manualStates := (occupiedAutoOn env s.manualStates).fst },
        (occupiedAutoOn env s.manualStates).snd ++ adjacentOnCmds env) := by
  simp [updateState, h]

theorem ManualStates.get_set_self (ms : ManualStates) (m : Mode)
    (d : List (String × Bool)) : (ms.set m d).get m = d := by
  cases m <;> rfl

/-- With auto-on enabled and not suppressed by night-mode manual-on, the
auto-on gate of `_update_state`'s OCCUPIED branch is open. -/
theorem occupiedAutoOn_gate (env : Env) (hOn : env.switchAutoOn = true)
    (hSup : ((env.hasNightMode && env.nightModeActive) &&
      (env.hasNightMode && env.switchNightManualOn)) = false) :
    (env.switchAutoOn &&
      (!(env.hasNightMode && env.nightModeActive) ||
        !(env.hasNightMode && env.switchNightManualOn))) = true := by
  rw [hOn]
  revert hSup
  cases env.hasNightMode && env.nightModeActive <;>
    cases env.hasNightMode && env.switchNightManualOn <;> simp

/-- Auto-on block, all-manual-states-off case: reset the active mode's map to
all-on and command every active light on. -/
theorem occupiedAutoOn_allOff (env : Env) (ms : ManualStates)
    (hOn : env.switchAutoOn = true)
    (hSup : ((env.hasNightMode && env.nightModeActive) &&
      (env.hasNightMode && env.switchNightManualOn)) = false)
    (hall : env.activeLights.all
      (fun l => !(msGetD (ms.get (autoOnMode env)) l)) = true) :
    occupiedAutoOn env ms =
      (ms.set (autoOnMode env) (env.activeLights.map (fun l => (l, true))),
        turnOnCmds none env.activeLights) := by
  have hc := occupiedAutoOn_gate env hOn hSup
  simp only [occupiedAutoOn]
  rw [hc, hall]
  simp

/-- Auto-on block, some-manual-state-on case: command on exactly the active
lights whose manual state (default on) is on; manual states untouched. -/
theorem occupiedAutoOn_someOn (env : Env) (ms : ManualStates)
    (hOn : env.switchAutoOn = true)
    (hSup : ((env.hasNightMode && env.nightModeActive) &&
      (env.hasNightMode && env.switchNightManualOn)) = false)
    (hall : env.activeLights.all
      (fun l => !(msGetD (ms.get (autoOnMode env)) l)) = false) :
    occupiedAutoOn env ms =
      (ms, turnOnCmds none (env.activeLights.filter
        (fun l => msGetD (ms.get (autoOnMode env)) l))) := by
  have hc := occupiedAutoOn_gate env hOn hSup
  simp only [occupiedAutoOn]
  rw [hc, hall]
  simp

end Lemmas

/-- C3, counterexample: with the `automation` master switch disabled, a
requested VACANT → OCCUPIED transition leaves the internal state at VACANT —
it is *not* updated to the new state as the claim says. -/
theorem C3_counterexample :
    ({ envBase with switchAutomation := false }).switchAutomation = false ∧
    (updateState { envBase with switchAutomation := false } s0
        RoomState.occupied).fst.state = RoomState.vacant ∧
    RoomState.vacant ≠ RoomState.occupied := by
  refine ⟨rfl, ?_, by decide⟩
  decide

/-- C3, amended: while the `automation` master switch is disabled,
`_update_state` drops the request entirely — the internal state is left
unchanged *and* no light commands are issued. -/
theorem C3_amended (env : Env) (s : PCState) (s' : RoomState)
    (h : env.switchAutomation = false) :
    updateState env s s' = (s, []) := by
  simp [updateState, h]

/-- C3, witness: the amended theorem at a concrete disabled-automation
environment. -/
theorem C3_witness :
    updateState { envBase with switchAutomation := false } s0
      RoomState.occupied = (s0, []) :=
  C3_amended { envBase with switchAutomation := false } s0 RoomState.occupied rfl

/-- C6: a presence-ON event delivered while the room is already OCCUPIED only
refreshes `last_presence_time`: no state transition, no change to
`occupancy_start_time`, timers or manual states, and no light commands. -/
theorem C6_idempotent_activation (env : Env) (s : PCState) (now : Int)
    (h : s.state = RoomState.occupied) :
    onPresenceSensorActivated env s now =
      ({ s with lastPresenceTime := some now }, []) := by
  simp [onPresenceSensorActivated, h]

/-- C6, witness: a second presence-ON in OCCUPIED at time 9 only refreshes the
`last_presence_time` bookkeeping. -/
theorem C6_witness :
    onPresenceSensorActivated envBase sOcc 9 =
      ({ sOcc with lastPresenceTime := some 9 }, []) :=
  C6_idempotent_activation envBase sOcc 9 rfl

/-- C8, counterexample: a presence event with the non-on/off state
`"unavailable"` delivered in OCCUPIED is *not* ignored: the machine
transitions to DETECTION_TIMEOUT and records `last_presence_time`. -/
theorem C8_counterexample :
    (handlePresenceEvent envBase sOcc 7 (some "unavailable")).fst.state =
        RoomState.detectionTimeout ∧
    (handlePresenceEvent envBase sOcc 7
        (some "unavailable")).fst.lastPresenceTime = some 7 ∧
    sOcc.state = RoomState.occupied ∧ sOcc.lastPresenceTime = none := by
  refine ⟨?_, ?_, rfl, rfl⟩ <;> decide

/-- C8, amended: only an event whose `new_state` is missing is ignored; any
delivered state value other than `"on"` (including `"unknown"` and
`"unavailable"`) is handled as presence OFF. -/
theorem C8_amended (env : Env) (s : PCState) (now : Int) (st : String) :
    handlePresenceEvent env s now none = (s, []) ∧
    (st ≠ "on" →
      handlePresenceEvent env s now (some st) =
        onPresenceSensorDeactivated env s now) := by
  refine ⟨rfl, fun h => ?_⟩
  simp [handlePresenceEvent, h]

/-- C8, witness: the amended theorem at a missing state and at
`"unavailable"`. -/
theorem C8_witness :
    handlePresenceEvent envBase sOcc 7 none = (sOcc, []) ∧
    handlePresenceEvent envBase sOcc 7 (some "unavailable") =
      onPresenceSensorDeactivated envBase sOcc 7 :=
  ⟨(C8_amended envBase sOcc 7 "unavailable").1,
    (C8_amended envBase sOcc 7 "unavailable").2 (by decide)⟩

/-- C9, counterexample: a malformed light-level reading is indeed stored as
absent (`none`), but `_is_room_dark` then returns `true` ("room is dark"),
not the claimed "not dark" fallback — the absent reading by itself does let
lights be turned on. -/
theorem C9_counterexample :
    lightLevelUpdate "unavailable" = none ∧
    isRoomDark (lightLevelUpdate "unavailable") 50 = true := by
  refine ⟨?_, ?_⟩ <;> decide

/-- C9, amended: a failed/malformed light-level read is stored as absent
(`none`), and the dark decision then falls back to *dark* (`true`, "assume
room needs light"), so a missing reading does allow lights to turn on. -/
theorem C9_amended (raw : String) (threshold : Int)
    (h : lightLevelUpdate raw = none) :
    isRoomDark (lightLevelUpdate raw) threshold = true := by
  rw [h]; rfl

/-- C9, witness: the amended theorem at the `"unavailable"` reading. -/
theorem C9_witness :
    isRoomDark (lightLevelUpdate "unavailable") 50 = true :=
  C9_amended "unavailable" 50 (by decide)

/-- C10: `PresenceTimer.start` with a non-positive duration changes nothing:
no new schedule is issued, the previous timer state (handle, start time,
duration) is kept, and `is_active` and `remaining_time` are unchanged. -/
theorem C10_nonpositive_start (t : PresenceTimer) (d now : Int) (h : d ≤ 0) :
    PresenceTimer.start t d now = (t, []) ∧
    (PresenceTimer.start t d now).fst.isActive = t.isActive ∧
    ∀ q : Int, (PresenceTimer.start t d now).fst.remainingTime q =
      t.remainingTime q := by
  have hs : PresenceTimer.start t d now = (t, []) := by
    simp [PresenceTimer.start, h]
  exact ⟨hs, by rw [hs], fun q => by rw [hs]⟩

/-- C10, witness: starting with duration `0` while a timer scheduled for 9
seconds is pending leaves that timer and all its fields in place. -/
theorem C10_witness :
    PresenceTimer.start ⟨some 9, some 0, some 9⟩ 0 4 =
        (⟨some 9, some 0, some 9⟩, []) ∧
    (PresenceTimer.isActive ⟨some 9, some 0, some 9⟩) = true :=
  ⟨(C10_nonpositive_start ⟨some 9, some 0, some 9⟩ 0 4 (by decide)).1,
    by decide⟩

/-- C1, counterexample: `_validate_state_transition` rejects VACANT →
COUNTDOWN, yet attempting that very transition (as
`start_countdown_from_vacant` does) changes the state to COUNTDOWN — the
request is not dropped, because `_update_state` never calls the validator. -/
theorem C1_counterexample :
    validateStateTransition RoomState.vacant RoomState.countdown = false ∧
    s0.state = RoomState.vacant ∧
    (startCountdownFromVacant envBase s0 0).fst.state = RoomState.countdown ∧
    RoomState.countdown ≠ RoomState.vacant := by
  refine ⟨by decide, rfl, by decide, by decide⟩

/-- C1, amended: `_validate_state_transition` returns `false` exactly for the
pairs outside the adjacency table (the request would be logged as invalid),
but `_update_state` never consults it: whenever the `automation` switch is
enabled, any requested transition — valid or not — sets the state to the
requested value. -/
theorem C1_amended :
    (∀ s new : RoomState, validateStateTransition s new = specValidEdge s new) ∧
    (∀ (env : Env) (s : PCState) (new : RoomState),
      env.switchAutomation = true → (updateState env s new).fst.state = new) := by
  refine ⟨fun s new => by cases s <;> cases new <;> rfl, fun env s new h => ?_⟩
  cases new with
  | vacant =>
      simp only [updateState, h]
      simp
      split <;> rfl
  | occupied => simp [updateState_occupied env s h]
  | detectionTimeout => simp [updateState, h]
  | countdown => simp [updateState, h]

/-- C1, witness: the invalid request VACANT → COUNTDOWN goes through under the
amended statement, and the validator agrees with the spec table there. -/
theorem C1_witness :
    (updateState envBase s0 RoomState.countdown).fst.state =
        RoomState.countdown ∧
    validateStateTransition RoomState.vacant RoomState.countdown =
      specValidEdge RoomState.vacant RoomState.countdown :=
  ⟨C1_amended.2 envBase s0 RoomState.countdown rfl,
    C1_amended.1 RoomState.vacant RoomState.countdown⟩

/-- C2, counterexample: presence OFF in OCCUPIED with *no* active light on
still transitions to DETECTION_TIMEOUT (and starts the detection timer) —
never directly to VACANT as claimed. -/
theorem C2_counterexample :
    checkAnyLightsOn envBase envBase.activeLights = false ∧
    (onPresenceSensorDeactivated envBase sOcc 0).fst.state =
        RoomState.detectionTimeout ∧
    (onPresenceSensorDeactivated envBase sOcc 0).fst.detectionTimer.isActive =
        true ∧
    RoomState.detectionTimeout ≠ RoomState.vacant := by
  refine ⟨by decide, by decide, by decide, by decide⟩

/-- C2, amended: presence OFF while OCCUPIED always enters DETECTION_TIMEOUT
and starts the detection timer, regardless of light state; the lights check
happens only when the detection timer expires, where no active light on sends
the machine straight to VACANT (COUNTDOWN is skipped). -/
theorem C2_amended (env : Env) (s : PCState) (now : Int)
    (h : env.switchAutomation = true) :
    (s.state = RoomState.occupied →
      (onPresenceSensorDeactivated env s now).fst.state =
          RoomState.detectionTimeout ∧
      (onPresenceSensorDeactivated env s now).fst.detectionTimer =
        (s.detectionTimer.start env.detectionTimeout now).fst) ∧
    (s.state = RoomState.detectionTimeout →
      checkAnyLightsOn env env.activeLights = false →
      (handleDetectionTimeout env s now).fst.state = RoomState.vacant) := by
  constructor
  · intro ho
    refine ⟨?_, ?_⟩ <;>
      simp [onPresenceSensorDeactivated, ho, updateState, h, startDetectionTimer]
  · intro hd hc
    simp only [handleDetectionTimeout, hd, hc]
    simp [updateState, h]
    split <;> rfl

/-- C2, witness: both halves of the amended statement at a one-light room with
the light off. -/
theorem C2_witness :
    (onPresenceSensorDeactivated envBase sOcc 0).fst.state =
        RoomState.detectionTimeout ∧
    (handleDetectionTimeout envBase sDet 0).fst.state = RoomState.vacant :=
  ⟨((C2_amended envBase sOcc 0 rfl).1 rfl).1,
    (C2_amended envBase sDet 0 rfl).2 rfl (by decide)⟩

/-- C4: entering COUNTDOWN from DETECTION_TIMEOUT starts the countdown timer
with the configured timeout (`short_timeout` when night mode applies, else
`long_timeout`) minus `detection_timeout`. -/
theorem C4_countdown_duration (env : Env) (s : PCState) (now : Int)
    (hAuto : env.switchAutomation = true)
    (hState : s.state = RoomState.detectionTimeout)
    (hOn : checkAnyLightsOn env env.activeLights = true) :
    (handleDetectionTimeout env s now).fst.state = RoomState.countdown ∧
    (handleDetectionTimeout env s now).fst.countdownTimer =
      (s.countdownTimer.start
        ((if env.hasNightMode && env.binarySensorNightMode then
            env.shortTimeout
          else env.longTimeout) - env.detectionTimeout) now).fst := by
  refine ⟨?_, ?_⟩ <;>
    simp [handleDetectionTimeout, hState, hOn, updateState, hAuto,
      startCountdownTimer, countdownDuration]

/-- C4, witness: with `detection_timeout = 5`, `long_timeout = 120` and night
mode inactive, the countdown timer is started for 115 seconds. -/
theorem C4_witness :
    (handleDetectionTimeout envLightsOn sDet 0).fst.state =
        RoomState.countdown ∧
    (handleDetectionTimeout envLightsOn sDet 0).fst.countdownTimer.duration =
        some 115 ∧
    (handleDetectionTimeout envLightsOn sDet 0).fst.countdownTimer.isActive =
        true := by
  have h := C4_countdown_duration envLightsOn sDet 0 rfl rfl (by decide)
  exact ⟨h.1, by rw [h.2]; decide, by rw [h.2]; decide⟩

/-- C5, counterexample: auto-on is enabled and the active (night) mode records
its only light OFF, yet on entering OCCUPIED no light command is issued and no
manual-state entry is flipped, because night mode is active together with
`night_manual_on`. -/
theorem C5_counterexample :
    envNightSuppressed.switchAutoOn = true ∧
    autoOnMode envNightSuppressed = Mode.night ∧
    msGetD (sAllOff.manualStates.get Mode.night) "light.a" = false ∧
    envNightSuppressed.activeLights = ["light.a"] ∧
    (updateState envNightSuppressed sAllOff RoomState.occupied).snd = [] ∧
    (updateState envNightSuppressed sAllOff
        RoomState.occupied).fst.manualStates = sAllOff.manualStates := by
  refine ⟨rfl, by decide, by decide, rfl, by decide, by decide⟩

/-- C5, amended: on entering OCCUPIED with auto-on enabled *and not
suppressed* (night mode active together with `night_manual_on` suppresses it):
if the active mode's manual-state map records every active light OFF, the
mode's entries are reset to `true` for exactly those lights and every active
light is commanded on; otherwise exactly the active lights whose manual state
(default `true` when absent) is on are commanded on. -/
theorem C5_amended (env : Env) (s : PCState)
    (hAuto : env.switchAutomation = true)
    (hOn : env.switchAutoOn = true)
    (hSup : ((env.hasNightMode && env.nightModeActive) &&
      (env.hasNightMode && env.switchNightManualOn)) = false) :
    (env.activeLights.all
        (fun l => !(msGetD (s.manualStates.get (autoOnMode env)) l)) = true →
      (updateState env s RoomState.occupied).fst.manualStates.get
          (autoOnMode env) = env.activeLights.map (fun l => (l, true)) ∧
      localOnLights (updateState env s RoomState.occupied).snd =
        env.activeLights) ∧
    (env.activeLights.all
        (fun l => !(msGetD (s.manualStates.get (autoOnMode env)) l)) = false →
      localOnLights (updateState env s RoomState.occupied).snd =
        env.activeLights.filter
          (fun l => msGetD (s.manualStates.get (autoOnMode env)) l) ∧
      (updateState env s RoomState.occupied).fst.manualStates =
        s.manualStates) := by
  rw [updateState_occupied env s hAuto]
  constructor
  · intro hall
    rw [occupiedAutoOn_allOff env s.manualStates hOn hSup hall]
    refine ⟨ManualStates.get_set_self _ _ _, ?_⟩
    simp [localOnLights_append, localOnLights_adjacentOnCmds,
      localOnLights_turnOn_none]
  · intro hall
    rw [occupiedAutoOn_someOn env s.manualStates hOn hSup hall]
    refine ⟨?_, rfl⟩
    simp [localOnLights_append, localOnLights_adjacentOnCmds,
      localOnLights_turnOn_none]

/-- C5, witness: day mode, auto-on enabled, the single active light recorded
OFF: its manual-state entry is reset to `true` and it is turned on. -/
theorem C5_witness :
    (updateState envAutoOn sAllOff RoomState.occupied).fst.manualStates.get
        (autoOnMode envAutoOn) = [("light.a", true)] ∧
    localOnLights (updateState envAutoOn sAllOff RoomState.occupied).snd =
      ["light.a"] :=
  (C5_amended envAutoOn sAllOff rfl rfl (by decide)).1 (by decide)

/-- C7: night-mode activity holds exactly when the night-mode switch is on and
the wall-clock time lies in `[start, end)`, wrapping past midnight when
`end < start` (then active iff `now ≥ start` or `now < end`); with
`start = 23:00` and `end = 08:00` it is active at 23:30 and 03:00 and inactive
at 12:00 (times as minutes since midnight). -/
theorem C7_night_mode_window :
    (∀ (e : Bool) (s f n : Nat),
      isNightModeActive e s f n = (e && specNightWindow s f n)) ∧
    isNightModeActive true 1380 480 1410 = true ∧
    isNightModeActive true 1380 480 180 = true ∧
    isNightModeActive true 1380 480 720 = false := by
  refine ⟨fun e s f n => ?_, by decide, by decide, by decide⟩
  cases e with
  | false => rfl
  | true =>
      by_cases h : s ≤ f
      · have h' : ¬ f < s := not_lt.mpr h
        simp [isNightModeActive, specNightWindow, h, h']
      · have h' : f < s := lt_of_not_ge h
        have h'' : ¬ s ≤ f := h
        simp [isNightModeActive, specNightWindow, h', h'']
